import Mathlib

/-!
# Verification of the k6 load-test scripts `load-test.js` and `load-test-complex.js`

The two scripts are embedded as state-passing functions.  The k6 runtime they
call (`http.post`, `http.del`, `check`, `Counter.add`, `sleep`, `Response.json`)
is not part of the repository: the server is a parameter `http : Request → Response`,
and the runtime operations are modelled from the specification (sections 3 and 4).
-/

namespace K6

/-! ## JavaScript values -/

/-- JavaScript values the scripts handle: `undefined` and the JSON values.
Numbers are integers (statuses, comment ids, comment numbers). -/
inductive Val where
  | undefined
  | null
  | bool (b : Bool)
  | num (n : Int)
  | str (s : String)
  | arr (xs : List Val)
  | obj (kvs : List (String × Val))

/-- JavaScript truthiness (`ToBoolean`), as used by `?:`, `if`, `!` and `||`. -/
def Val.truthy : Val → Bool
  | .undefined => false
  | .null => false
  | .bool b => b
  | .num n => n != 0
  | .str s => s != ""
  | .arr _ => true
  | .obj _ => true

/-- Value of the own property `k` of a value that is neither `undefined` nor `null`
(`undefined` when the property is absent).  Only the data properties `comment`,
`body`, `id`, `user`, `token`, `article`, `slug`, `errors` are read by the scripts. -/
def Val.get (v : Val) (k : String) : Val :=
  match v with
  | .obj kvs => (kvs.lookup k).getD .undefined
  | _ => .undefined

/-- Walk a dotted selector such as `user.token` through nested objects. -/
def Val.path (v : Val) : List String → Val
  | [] => v
  | k :: ks => (v.get k).path ks

/-- Strict comparison `v === s` against a string. -/
def Val.strictEqStr (v : Val) (s : String) : Bool :=
  match v with
  | .str t => t == s
  | _ => false

/-- Whether a value is a JSON object. -/
def Val.isObj : Val → Bool
  | .obj _ => true
  | _ => false

mutual
/-- String coercion performed by a template literal. -/
def Val.toStr : Val → String
  | .undefined => "undefined"
  | .null => "null"
  | .bool b => if b then "true" else "false"
  | .num n => toString n
  | .str s => s
  | .arr xs => Val.joinStr xs
  | .obj _ => "[object Object]"
termination_by structural v => v
/-- String coercion of an array: the elements joined by commas, `null` and
`undefined` elements printing as the empty string. -/
def Val.joinStr : List Val → String
  | [] => ""
  | x :: xs =>
    (match x with
      | .undefined => ""
      | .null => ""
      | v => Val.toStr v)
    ++ (match xs with
      | [] => ""
      | _ => ",")
    ++ Val.joinStr xs
termination_by structural xs => xs
end

/-- Exceptions a check predicate of the scripts can raise. -/
inductive Exn where
  | syntaxError
  | typeError
  deriving DecidableEq, Repr

/-- Property access `v.k` in JavaScript: a `TypeError` on `undefined` and `null`. -/
def Val.prop (v : Val) (k : String) : Except Exn Val :=
  match v with
  | .undefined => .error .typeError
  | .null => .error .typeError
  | w => .ok (w.get k)

/-! ## Requests and responses -/

/-- HTTP methods used by the scripts. -/
inductive Method where
  | post
  | delete
  deriving DecidableEq, Repr

/-- An outgoing request.  The payload is kept as the value handed to `JSON.stringify`
(`none` for the `null` body of `http.del`). -/
structure Request where
  method : Method
  url : String
  payload : Option Val
  headers : List (String × String)

/-- Modelled from the spec: the `Response{status, body, duration, parsedJsonAccessor}`
of the Request Executor (the k6 runtime is not under src/).  `body` is `none` when the
response text is not valid JSON and `some v` when it denotes the JSON value `v`;
`duration` is `timings.duration` in milliseconds. -/
structure Response where
  status : Nat
  duration : ℚ
  body : Option Val

/-- Modelled from the spec: the parsed-JSON accessor `res.json(selector)` of a response
(k6 runtime, not under src/).  It yields the value at the selector, and `undefined`
when the body is not valid JSON or holds nothing at the selector. -/
def Response.json (r : Response) (sel : List String) : Val :=
  match r.body with
  | none => .undefined
  | some v => v.path sel

/-- JavaScript `JSON.parse(res.body)`: a `SyntaxError` on text that is not JSON. -/
def Response.parse (r : Response) : Except Exn Val :=
  match r.body with
  | none => .error .syntaxError
  | some v => .ok v

/-! ## Runtime state: counters, recorded checks, issued requests -/

/-- Modelled from the spec: a `CheckResult{name, passed}` of the Check Evaluator. -/
structure CheckResult where
  name : String
  passed : Bool
  deriving DecidableEq, Repr

/-- What one run of a script function leaves behind, in order. -/
inductive Event where
  | request (r : Request)
  | check (c : CheckResult)
  | sleep (seconds : Nat)

/-- Runtime state: the value of every named `Counter` and the events so far. -/
structure State where
  counters : String → Nat
  trace : List Event

/-- State at the start of a test: all counters at zero, nothing recorded. -/
def State.init : State :=
  { counters := fun _ => 0, trace := [] }

/-- Record an event. -/
def State.emit (s : State) (e : Event) : State :=
  { s with trace := s.trace ++ [e] }

/-- Modelled from the spec: `Counter.add(n)` on the counter called `name`
(`increment(counterName, amount)` of the Metric Aggregator). -/
def State.add (s : State) (name : String) (n : Nat) : State :=
  { s with counters := fun k => if k = name then s.counters k + n else s.counters k }

/-- A named check predicate: it may return any value or raise. -/
abbrev Predicate := Response → Except Exn Val

/-- Modelled from the spec: outcome of one predicate inside `check` of the Check Evaluator
(k6 runtime, not under src/): it passes when it returns a truthy value; an exception it
raises is treated as that check failing. -/
def evalPredicate (p : Predicate) (res : Response) : Bool :=
  match p res with
  | .ok v => v.truthy
  | .error _ => false

/-- Modelled from the spec: the sequence of `CheckResult` the Check Evaluator produces for
a group of named predicates: every predicate is evaluated, independently of the others. -/
def checkResults (res : Response) (preds : List (String × Predicate)) : List CheckResult :=
  preds.map fun np => CheckResult.mk np.1 (evalPredicate np.2 res)

/-- Modelled from the spec: overall success of a check group: all predicates pass. -/
def groupPasses (res : Response) (preds : List (String × Predicate)) : Bool :=
  (checkResults res preds).all fun r => r.passed

/-- Modelled from the spec: `check(res, namedPredicates)` of the Check Evaluator
(k6 runtime, not under src/).  Every predicate is evaluated, independently of the others;
an exception raised by a predicate counts as that check failing; each outcome is recorded;
the result is `true` exactly when all predicates pass. -/
def check (res : Response) (preds : List (String × Predicate)) (s : State) : Bool × State :=
  (groupPasses res preds, { s with trace := s.trace ++ (checkResults res preds).map Event.check })

/-- Modelled from the spec: `http.post` / `http.del` of the Request Executor: the request
is issued and the server's response returned. -/
def send (http : Request → Response) (req : Request) (s : State) : Response × State :=
  (http req, s.emit (.request req))

/-- Modelled from the spec: `sleep(n)`, a cooperative pause of `n` seconds. -/
def sleep (n : Nat) (s : State) : State :=
  s.emit (.sleep n)

/-- The environment variables `__ENV.EMAIL`, `__ENV.PASS`, `__ENV.URL`. -/
structure Env where
  email : String
  pass : String
  url : String

/-- Modelled from the spec: a `Threshold{metric name, predicate}`; the scripts declare
`p(95)<ms` on a latency metric and `count<n` on counters. -/
inductive Threshold where
  | p95Lt (ms : Nat)
  | countLt (n : Nat)
  deriving DecidableEq, Repr

/-- Modelled from the spec: evaluation of a count threshold against the aggregated
counter value at run end (`none` for a threshold that is not on a count). -/
def Threshold.evalCount : Threshold → Nat → Option Bool
  | .countLt n, c => some (decide (c < n))
  | .p95Lt _, _ => none

/-- A stage of the ramp: duration in seconds and target number of virtual users. -/
structure Stage where
  duration : Nat
  target : Nat
  deriving DecidableEq, Repr

/-! ## Check predicates shared by both scripts -/

/-- The check `login successful` (both scripts, line 46). -/
def loginSuccessful : Predicate := fun res =>
  .ok (.bool (res.status == 200))

/-- The check `token present` (both scripts, line 47): `res.json('user.token') !== ''`. -/
def tokenPresent : Predicate := fun res =>
  .ok (.bool (!(res.json ["user", "token"]).strictEqStr ""))

/-- The checks of the login response in `setup` (both scripts, lines 45-48). -/
def loginChecks : List (String × Predicate) :=
  [("login successful", loginSuccessful), ("token present", tokenPresent)]

/-- The check `comment added`. -/
def commentAdded : Predicate := fun res =>
  .ok (.bool (res.status == 200))

/-- The check `response time < 600ms`. -/
def responseTimeOk : Predicate := fun res =>
  .ok (.bool (decide (res.duration < 600)))

/-- The check `comment body is correct`: `JSON.parse(res.body).comment.body === comment`. -/
def commentBodyIsCorrect (comment : String) : Predicate := fun res =>
  match res.parse with
  | .error e => .error e
  | .ok responseBody =>
    match responseBody.prop "comment" with
    | .error e => .error e
    | .ok c =>
      match c.prop "body" with
      | .error e => .error e
      | .ok b => .ok (.bool (b.strictEqStr comment))

/-- The check `no errors in body`: `!res.json('errors')`. -/
def noErrorsInBody : Predicate := fun res =>
  .ok (.bool (!(res.json ["errors"]).truthy))

/-- The four checks of the add-comment response (load-test.js lines 74-82,
load-test-complex.js lines 101-109). -/
def addCommentChecks (comment : String) : List (String × Predicate) :=
  [("comment added", commentAdded),
   ("response time < 600ms", responseTimeOk),
   ("comment body is correct", commentBodyIsCorrect comment),
   ("no errors in body", noErrorsInBody)]

/-- Headers of an authorised request. -/
def authHeaders (authToken : Val) : List (String × String) :=
  [("Content-Type", "application/json"), ("Authorization", "Token " ++ authToken.toStr)]

/-- The login request of `setup` (both scripts, lines 36-43). -/
def loginRequest (env : Env) : Request :=
  { method := .post
    url := env.url ++ "/users/login"
    payload := some (.obj [("user", .obj [("email", .str env.email), ("password", .str env.pass)])])
    headers := [("Content-Type", "application/json")] }

/-! ## load-test.js -/

namespace LoadTest

/-- The slug of the article under test (line 16). -/
def postSlug : String := "soak-2980"

/-- The comments endpoint (line 17). -/
def addCommentUrl (env : Env) : String :=
  env.url ++ "/articles/" ++ postSlug ++ "/comments"

/-- The declared ramp `options.stages` (lines 20-26), durations in seconds. -/
def stages : List Stage :=
  [⟨60, 10⟩, ⟨180, 20⟩, ⟨60, 60⟩, ⟨180, 60⟩, ⟨60, 0⟩]

/-- The declared `options.thresholds` (lines 27-31). -/
def thresholds : List (String × Threshold) :=
  [("http_req_duration", .p95Lt 500),
   ("add_comment_errors", .countLt 10),
   ("delete_comment_errors", .countLt 10)]

/-- The context returned by `setup`. -/
structure Context where
  authToken : Val

/-- The function `setup` (lines 34-52): the context it returns (or the exception that
escapes it) and the runtime state it leaves. -/
def setup (env : Env) (http : Request → Response) (s : State) : Except Exn Context × State :=
  let (loginRes, s) := send http (loginRequest env) s
  let (_, s) := check loginRes loginChecks s
  let authToken := loginRes.json ["user", "token"]
  (.ok { authToken := authToken }, s)

/-- The comment number of an iteration (line 56). -/
def commentNumber (vu iter : Int) : Int :=
  (vu - 1) * 3 + iter + 1

/-- The comment body of an iteration (line 57). -/
def comment (vu iter : Int) : String :=
  "Soak test comment " ++ toString (commentNumber vu iter)

/-- The add-comment request (lines 60-69). -/
def addCommentRequest (env : Env) (data : Context) (vu iter : Int) : Request :=
  { method := .post
    url := addCommentUrl env
    payload := some (.obj [("comment", .obj [("body", .str (comment vu iter))])])
    headers := authHeaders data.authToken }

/-- The comment id read from the add-comment response (lines 71-72). -/
def commentId (addCommentRes : Response) : Val :=
  let createdComment := addCommentRes.json ["comment"]
  if createdComment.truthy then createdComment.get "id" else .null

/-- The delete-comment request (lines 86-92). -/
def deleteCommentRequest (env : Env) (data : Context) (commentId : Val) : Request :=
  { method := .delete
    url := addCommentUrl env ++ "/" ++ commentId.toStr
    payload := none
    headers := authHeaders data.authToken }

/-- The checks of the delete-comment response (lines 94-97). -/
def deleteCommentChecks : List (String × Predicate) :=
  [("comment deleted", fun res => .ok (.bool (res.status == 200))),
   ("response time < 600ms", fun res => .ok (.bool (decide (res.duration < 600))))]

/-- The default function (lines 54-103): one iteration of virtual user `vu`,
iteration counter `iter`; `.ok ()` when the iteration runs to its end. -/
def default (env : Env) (http : Request → Response) (data : Context) (vu iter : Int)
    (s : State) : Except Exn Unit × State :=
  let (addCommentRes, s) := send http (addCommentRequest env data vu iter) s
  let commentId := commentId addCommentRes
  let (ok, s) := check addCommentRes (addCommentChecks (comment vu iter)) s
  let s := if ok then s else s.add "add_comment_errors" 1
  let s :=
    if commentId.truthy then
      let (deleteCommentRes, s) := send http (deleteCommentRequest env data commentId) s
      let (ok, s) := check deleteCommentRes deleteCommentChecks s
      if ok then s else s.add "delete_comment_errors" 1
    else
      s.add "delete_comment_errors" 1
  (.ok (), sleep 3 s)

end LoadTest

/-! ## load-test-complex.js -/

namespace LoadTestComplex

/-- The articles endpoint (line 16). -/
def articleUrl (env : Env) : String :=
  env.url ++ "/articles"

/-- The declared ramp `options.stages` (lines 20-26), durations in seconds. -/
def stages : List Stage :=
  [⟨30, 10⟩, ⟨30, 20⟩, ⟨180, 60⟩, ⟨180, 60⟩, ⟨60, 0⟩]

/-- The declared `options.thresholds` (lines 27-31). -/
def thresholds : List (String × Threshold) :=
  [("http_req_duration", .p95Lt 500),
   ("add_comment_errors", .countLt 10),
   ("delete_post_errors", .countLt 10)]

/-- The context returned by `setup`. -/
structure Context where
  authToken : Val
  postSlug : Val

/-- The create-post request of `setup` (lines 53-70). -/
def createPostRequest (env : Env) (authToken : Val) : Request :=
  { method := .post
    url := articleUrl env
    payload := some (.obj [("article", .obj
      [("title", .str "THIS IS LOAD TESTING POST"),
       ("description", .str "Description of the LOAD test post"),
       ("body", .str "This is the body of the LOAD test post."),
       ("tagList", .arr [.str "test", .str "load"])])])
    headers := authHeaders authToken }

/-- The check `post created` (line 73). -/
def postCreated : Predicate := fun res =>
  .ok (.bool (res.status == 201))

/-- The check `post slug present` (line 74): `res.json('article.slug') !== ''`. -/
def postSlugPresent : Predicate := fun res =>
  .ok (.bool (!(res.json ["article", "slug"]).strictEqStr ""))

/-- The checks of the create-post response (lines 72-75). -/
def createPostChecks : List (String × Predicate) :=
  [("post created", postCreated), ("post slug present", postSlugPresent)]

/-- The function `setup` (lines 34-80): the context it returns (or the exception that
escapes it) and the runtime state it leaves. -/
def setup (env : Env) (http : Request → Response) (s : State) : Except Exn Context × State :=
  let (loginRes, s) := send http (loginRequest env) s
  let (_, s) := check loginRes loginChecks s
  let authToken := loginRes.json ["user", "token"]
  let (createPostRes, s) := send http (createPostRequest env authToken) s
  let (_, s) := check createPostRes createPostChecks s
  let postSlug := createPostRes.json ["article", "slug"]
  (.ok { authToken := authToken, postSlug := postSlug }, s)

/-- The comments endpoint of the post created by `setup` (line 85). -/
def addCommentUrl (env : Env) (data : Context) : String :=
  env.url ++ "/articles/" ++ data.postSlug.toStr ++ "/comments"

/-- The comment number of an iteration (line 86). -/
def commentNumber (vu iter : Int) : Int :=
  (vu - 1) * 33 + iter + 1

/-- The comment body of an iteration (line 87). -/
def comment (vu iter : Int) : String :=
  "LOAD test comment " ++ toString (commentNumber vu iter)

/-- The add-comment request (lines 90-99). -/
def addCommentRequest (env : Env) (data : Context) (vu iter : Int) : Request :=
  { method := .post
    url := addCommentUrl env data
    payload := some (.obj [("comment", .obj [("body", .str (comment vu iter))])])
    headers := authHeaders data.authToken }

/-- The default function (lines 82-112): one iteration of virtual user `vu`,
iteration counter `iter`; `.ok ()` when the iteration runs to its end. -/
def default (env : Env) (http : Request → Response) (data : Context) (vu iter : Int)
    (s : State) : Except Exn Unit × State :=
  let (addCommentRes, s) := send http (addCommentRequest env data vu iter) s
  let (ok, s) := check addCommentRes (addCommentChecks (comment vu iter)) s
  let s := if ok then s else s.add "add_comment_errors" 1
  (.ok (), sleep 3 s)

/-- The delete-post request of `teardown` (lines 117-124). -/
def deletePostRequest (env : Env) (data : Context) : Request :=
  { method := .delete
    url := env.url ++ "/articles/" ++ data.postSlug.toStr
    payload := none
    headers := authHeaders data.authToken }

/-- The check of the delete-post response (lines 126-128). -/
def deletePostChecks : List (String × Predicate) :=
  [("post deleted", fun res => .ok (.bool (res.status == 204)))]

/-- The function `teardown` (lines 114-129): `.ok ()` when it runs to its end, the
context object as it stands at that point, and the runtime state. -/
def teardown (env : Env) (http : Request → Response) (data : Context) (s : State) :
    Except Exn Unit × Context × State :=
  let (deletePostRes, s) := send http (deletePostRequest env data) s
  let (ok, s) := check deletePostRes deletePostChecks s
  let s := if ok then s else s.add "delete_post_errors" 1
  (.ok (), data, s)

end LoadTestComplex

/-! ## Runs of iterations, thresholds and the ramp -/

/-- One iteration as the scheduler starts it: the virtual user, its iteration counter, and
the behaviour of the server while it runs. -/
structure Iteration where
  vu : Int
  iter : Int
  http : Request → Response

/-- Modelled from the spec: the Virtual User Scheduler running the default function of
load-test.js once per listed iteration, all iterations updating the shared counters (the
scheduler is the k6 runtime, not under src/; counter updates are atomic, so the iterations
are taken one after another). -/
def LoadTest.runIterations (env : Env) (data : LoadTest.Context) :
    List Iteration → State → State
  | [], s => s
  | it :: rest, s =>
    LoadTest.runIterations env data rest (LoadTest.default env it.http data it.vu it.iter s).2

/-- Modelled from the spec: the same scheduler running the default function of
load-test-complex.js. -/
def LoadTestComplex.runIterations (env : Env) (data : LoadTestComplex.Context) :
    List Iteration → State → State
  | [], s => s
  | it :: rest, s =>
    LoadTestComplex.runIterations env data rest
      (LoadTestComplex.default env it.http data it.vu it.iter s).2

/-- Whether the add-comment check group of an iteration of load-test.js fails. -/
def LoadTest.groupFailed (env : Env) (data : LoadTest.Context) (it : Iteration) : Bool :=
  !groupPasses (it.http (LoadTest.addCommentRequest env data it.vu it.iter))
    (addCommentChecks (LoadTest.comment it.vu it.iter))

/-- Whether the add-comment check group of an iteration of load-test-complex.js fails. -/
def LoadTestComplex.groupFailed (env : Env) (data : LoadTestComplex.Context)
    (it : Iteration) : Bool :=
  !groupPasses (it.http (LoadTestComplex.addCommentRequest env data it.vu it.iter))
    (addCommentChecks (LoadTestComplex.comment it.vu it.iter))

/-- Modelled from the spec: `evaluateThresholds` of the Metric Aggregator restricted to the
threshold declared on the counter `name`, evaluated on the state at the end of the run
(`none` when no count threshold is declared on that metric). -/
def thresholdPasses (ths : List (String × Threshold)) (name : String) (s : State) :
    Option Bool :=
  (ths.lookup name).bind fun t => t.evalCount (s.counters name)

/-- Modelled from the spec: the desired concurrency of the Virtual User Scheduler (k6
runtime, not under src/) at time `t`, in seconds since the start of the first listed
stage, the ramp coming from `prev` virtual users: inside a stage it is
`prev + (target - prev) * t / duration`, rounded to the nearest integer and floored at 0;
from the end of the last stage on, the last target. -/
def desiredConcurrency : Int → List Stage → ℚ → Int
  | prev, [], _ => prev
  | prev, st :: rest, t =>
    if t < (st.duration : ℚ) then
      max 0 (round ((prev : ℚ) + ((st.target : ℚ) - (prev : ℚ)) * t / (st.duration : ℚ)))
    else
      desiredConcurrency (st.target : Int) rest (t - (st.duration : ℚ))

/-! ## Vocabulary of the claims -/

/-- The four checks of an add-comment response `r` to a comment whose body was `sent`, in
the words of the claims: status 200, response time below 600 ms, the returned comment body
equal to the body sent, and no `errors` in the body. -/
def AddCommentChecksPass (r : Response) (sent : String) : Prop :=
  r.status = 200
  ∧ r.duration < 600
  ∧ (∃ v, r.body = some v ∧ (v.get "comment").get "body" = .str sent)
  ∧ (r.json ["errors"]).truthy = false

/-- An add-comment response whose body is not parseable JSON or has no `comment` object. -/
def NoCommentObject (r : Response) : Prop :=
  r.body = none ∨ ∃ v, r.body = some v ∧ (v.get "comment").isObj = false

/-- The DELETE requests among a list of events, in order. -/
def deleteRequests : List Event → List Request
  | [] => []
  | .request r :: es => if r.method = .delete then r :: deleteRequests es else deleteRequests es
  | .check _ :: es => deleteRequests es
  | .sleep _ :: es => deleteRequests es

/-! ## Concrete inputs used by the examples -/

/-- An environment for the examples. -/
def sampleEnv : Env :=
  { email := "user@example.com", pass := "secret", url := "https://api.example.com/api" }

/-- A rejected request: status 401 and an error body without `user` or `article`. -/
def rejection : Response :=
  { status := 401
    duration := 50
    body := some (.obj [("errors", .obj [("email or password", .arr [.str "is invalid"])])]) }

/-- A server that rejects every request. -/
def rejectingServer : Request → Response :=
  fun _ => rejection

/-- A gateway error: status 502 with a body that is not JSON. -/
def gatewayError : Response :=
  { status := 502, duration := 30, body := none }

/-- A server that answers every request with a gateway error. -/
def brokenServer : Request → Response :=
  fun _ => gatewayError

/-- A healthy server: status 200 in 120 ms, the created comment (id 7) echoing the body
that was sent. -/
def echoServer : Request → Response := fun req =>
  { status := 200
    duration := 120
    body := some (.obj [("comment", .obj
      [("id", .num 7),
       ("body", match req.payload with
         | some p => (p.get "comment").get "body"
         | none => .null)])]) }

/-- A context of load-test.js for the examples. -/
def sampleData : LoadTest.Context :=
  { authToken := .str "jwt" }

/-- A context of load-test-complex.js for the examples. -/
def sampleDataComplex : LoadTestComplex.Context :=
  { authToken := .str "jwt", postSlug := .str "load-post-1" }

/-! ## Decimal representation -/

/-- Value denoted by a list of decimal digit characters. -/
def digitsValue (cs : List Char) : Nat :=
  cs.foldl (fun a c => 10 * a + (c.toNat - 48)) 0

/-- A decimal digit character denotes the digit it was made from. -/
theorem digitChar_value (k : Nat) (h : k < 10) : (Nat.digitChar k).toNat - 48 = k := by
  interval_cases k <;> rfl

/-- With enough fuel, the digits put in front of `ds` denote `n`. -/
theorem toDigitsCore_value (fuel : Nat) : ∀ (n : Nat) (ds : List Char), n < fuel →
    ∃ pre, Nat.toDigitsCore 10 fuel n ds = pre ++ ds ∧ digitsValue pre = n := by
  induction fuel with
  | zero => intro n ds h; omega
  | succ fuel ih =>
    intro n ds h
    unfold Nat.toDigitsCore
    by_cases h0 : n / 10 = 0
    · refine ⟨[Nat.digitChar (n % 10)], by simp [h0], ?_⟩
      simp [digitsValue, digitChar_value (n % 10) (Nat.mod_lt _ (by decide))]
      omega
    · obtain ⟨pre, hpre, hval⟩ := ih (n / 10) (Nat.digitChar (n % 10) :: ds) (by omega)
      refine ⟨pre ++ [Nat.digitChar (n % 10)], by simp [h0, hpre], ?_⟩
      unfold digitsValue at hval ⊢
      rw [List.foldl_append, hval]
      simp [digitChar_value (n % 10) (Nat.mod_lt _ (by decide))]
      omega

/-- Reading back the decimal digits of `n` gives `n`. -/
theorem digitsValue_toDigits (n : Nat) : digitsValue (Nat.toDigits 10 n) = n := by
  obtain ⟨pre, hpre, hval⟩ := toDigitsCore_value (n + 1) n [] (by omega)
  unfold Nat.toDigits
  rw [hpre]; simpa using hval

/-- Different natural numbers print differently. -/
theorem natRepr_injective {a b : Nat} (h : Nat.repr a = Nat.repr b) : a = b := by
  unfold Nat.repr at h
  have h2 : Nat.toDigits 10 a = Nat.toDigits 10 b := by
    have := congrArg String.data h
    simpa [List.asString] using this
  rw [← digitsValue_toDigits a, ← digitsValue_toDigits b, h2]

/-- A common prefix can be cancelled. -/
theorem string_append_left_cancel {p a b : String} (h : p ++ a = p ++ b) : a = b := by
  have := congrArg String.data h
  simp only [String.data_append, List.append_cancel_left_eq] at this
  exact String.ext this

/-- Different non-negative integers print differently, as in a template literal. -/
theorem toString_int_injective {a b : Int} (ha : 0 ≤ a) (hb : 0 ≤ b)
    (h : toString a = toString b) : a = b := by
  obtain ⟨m, rfl⟩ := Int.eq_ofNat_of_zero_le ha
  obtain ⟨n, rfl⟩ := Int.eq_ofNat_of_zero_le hb
  have : Nat.repr m = Nat.repr n := h
  rw [natRepr_injective this]

/-! ## Comment numbering (claims C1 and C10) -/

/-- Numbering in blocks of `k`: inside a block the number determines user and iteration. -/
theorem blockNumber_injective (k vu1 iter1 vu2 iter2 : Int)
    (a1 : 0 ≤ iter1) (b1 : iter1 < k) (a2 : 0 ≤ iter2) (b2 : iter2 < k)
    (h : (vu1 - 1) * k + iter1 + 1 = (vu2 - 1) * k + iter2 + 1) : vu1 = vu2 ∧ iter1 = iter2 := by
  have hv : vu1 = vu2 := by
    rcases lt_trichotomy vu1 vu2 with hlt | heq | hgt
    · exfalso
      have : (vu1 - 1) * k + k ≤ (vu2 - 1) * k := by nlinarith
      linarith
    · exact heq
    · exfalso
      have : (vu2 - 1) * k + k ≤ (vu1 - 1) * k := by nlinarith
      linarith
  subst hv
  exact ⟨rfl, by linarith⟩

/-- Numbering in blocks of `k`: users 1..N over iterations 0..k-1 list 1..k*N in order. -/
theorem blockNumbers_enumerate (k : Nat) (f : Int → Int → Int)
    (hf : ∀ v i : Nat, f ((v : Int) + 1) (i : Int) = ((k * v + i : Nat) : Int) + 1) (N : Nat) :
    (List.range N).flatMap (fun (v : Nat) =>
        (List.range k).map (fun (i : Nat) => f ((v : Int) + 1) (i : Int)))
      = (List.range (k * N)).map (fun (j : Nat) => (j : Int) + 1) := by
  induction N with
  | zero => simp
  | succ N ih =>
    rw [List.range_succ, List.flatMap_append, ih, Nat.mul_succ, List.range_add]
    simp only [List.flatMap_cons, List.flatMap_nil, List.append_nil, List.map_append, List.map_map]
    congr 1
    apply List.map_congr_left
    intro i _
    simp only [Function.comp]
    exact hf N i

/-- Exact collision criterion in load-test.js: for virtual users from 1 on and iteration
counters from 0 on, two comment bodies coincide exactly when `3 * vu + iter` coincides. -/
theorem loadTest_comment_eq_iff (vu1 iter1 vu2 iter2 : Int)
    (h1 : 1 ≤ vu1) (h2 : 1 ≤ vu2) (a1 : 0 ≤ iter1) (a2 : 0 ≤ iter2) :
    LoadTest.comment vu1 iter1 = LoadTest.comment vu2 iter2
      ↔ 3 * vu1 + iter1 = 3 * vu2 + iter2 := by
  constructor
  · intro h
    have hn := toString_int_injective (by unfold LoadTest.commentNumber; nlinarith)
      (by unfold LoadTest.commentNumber; nlinarith) (string_append_left_cancel h)
    unfold LoadTest.commentNumber at hn
    linarith
  · intro h
    have hn : LoadTest.commentNumber vu1 iter1 = LoadTest.commentNumber vu2 iter2 := by
      unfold LoadTest.commentNumber
      linarith
    unfold LoadTest.comment
    rw [hn]

/-- Exact collision criterion in load-test-complex.js: two comment bodies coincide exactly
when `33 * vu + iter` coincides. -/
theorem loadTestComplex_comment_eq_iff (vu1 iter1 vu2 iter2 : Int)
    (h1 : 1 ≤ vu1) (h2 : 1 ≤ vu2) (a1 : 0 ≤ iter1) (a2 : 0 ≤ iter2) :
    LoadTestComplex.comment vu1 iter1 = LoadTestComplex.comment vu2 iter2
      ↔ 33 * vu1 + iter1 = 33 * vu2 + iter2 := by
  constructor
  · intro h
    have hn := toString_int_injective (by unfold LoadTestComplex.commentNumber; nlinarith)
      (by unfold LoadTestComplex.commentNumber; nlinarith) (string_append_left_cancel h)
    unfold LoadTestComplex.commentNumber at hn
    linarith
  · intro h
    have hn : LoadTestComplex.commentNumber vu1 iter1
        = LoadTestComplex.commentNumber vu2 iter2 := by
      unfold LoadTestComplex.commentNumber
      linarith
    unfold LoadTestComplex.comment
    rw [hn]

/-- One virtual user never repeats a comment body, in either script. -/
theorem comment_unique_same_user (vu iter1 iter2 : Int) (h : 1 ≤ vu) (a1 : 0 ≤ iter1)
    (a2 : 0 ≤ iter2) (hne : iter1 ≠ iter2) :
    LoadTest.comment vu iter1 ≠ LoadTest.comment vu iter2
    ∧ LoadTestComplex.comment vu iter1 ≠ LoadTestComplex.comment vu iter2 := by
  constructor
  · intro he
    have := (loadTest_comment_eq_iff vu iter1 vu iter2 h h a1 a2).mp he
    exact hne (by linarith)
  · intro he
    have := (loadTestComplex_comment_eq_iff vu iter1 vu iter2 h h a1 a2).mp he
    exact hne (by linarith)

/-- Claim C1, evaluated at the failing input: the pairs (1, 3) and (2, 0) differ and lie in
the claimed range (vu >= 1, iter >= 0), yet the default function of load-test.js builds the
same comment body `Soak test comment 4` for both; likewise (1, 33) and (2, 0) both give
`LOAD test comment 34` in load-test-complex.js. -/
theorem comment_collision_across_users :
    ((1 : Int) ≠ 2 ∧ (1 : Int) ≤ 1 ∧ (1 : Int) ≤ 2 ∧ (0 : Int) ≤ 3 ∧ (0 : Int) ≤ 0
      ∧ LoadTest.comment 1 3 = "Soak test comment 4"
      ∧ LoadTest.comment 2 0 = "Soak test comment 4")
    ∧ ((0 : Int) ≤ 33
      ∧ LoadTestComplex.comment 1 33 = "LOAD test comment 34"
      ∧ LoadTestComplex.comment 2 0 = "LOAD test comment 34") := by
  decide

/-- Claim C10: with k = 3 (load-test.js) and k = 33 (load-test-complex.js), for vu >= 1 and
0 <= iter < k the comment number determines the pair (vu, iter), every such number is at
least 1, and virtual users 1..N with iterations 0..k-1 produce the numbers 1..k*N, each
exactly once (here: in increasing order). -/
theorem commentNumber_block_bijection :
    (∀ vu1 iter1 vu2 iter2 : Int, 1 ≤ vu1 → 1 ≤ vu2 → 0 ≤ iter1 → iter1 < 3 → 0 ≤ iter2 →
        iter2 < 3 → LoadTest.commentNumber vu1 iter1 = LoadTest.commentNumber vu2 iter2 →
        vu1 = vu2 ∧ iter1 = iter2)
    ∧ (∀ vu1 iter1 vu2 iter2 : Int, 1 ≤ vu1 → 1 ≤ vu2 → 0 ≤ iter1 → iter1 < 33 → 0 ≤ iter2 →
        iter2 < 33 →
        LoadTestComplex.commentNumber vu1 iter1 = LoadTestComplex.commentNumber vu2 iter2 →
        vu1 = vu2 ∧ iter1 = iter2)
    ∧ (∀ vu iter : Int, 1 ≤ vu → 0 ≤ iter →
        1 ≤ LoadTest.commentNumber vu iter ∧ 1 ≤ LoadTestComplex.commentNumber vu iter)
    ∧ (∀ N : Nat,
        (List.range N).flatMap (fun (v : Nat) => (List.range 3).map
            (fun (i : Nat) => LoadTest.commentNumber ((v : Int) + 1) (i : Int)))
          = (List.range (3 * N)).map (fun (j : Nat) => (j : Int) + 1))
    ∧ (∀ N : Nat,
        (List.range N).flatMap (fun (v : Nat) => (List.range 33).map
            (fun (i : Nat) => LoadTestComplex.commentNumber ((v : Int) + 1) (i : Int)))
          = (List.range (33 * N)).map (fun (j : Nat) => (j : Int) + 1)) := by
  refine ⟨?_, ?_, ?_, ?_, ?_⟩
  · intro vu1 iter1 vu2 iter2 _ _ a1 b1 a2 b2 h
    exact blockNumber_injective 3 vu1 iter1 vu2 iter2 a1 b1 a2 b2 h
  · intro vu1 iter1 vu2 iter2 _ _ a1 b1 a2 b2 h
    exact blockNumber_injective 33 vu1 iter1 vu2 iter2 a1 b1 a2 b2 h
  · intro vu iter h1 h2
    unfold LoadTest.commentNumber LoadTestComplex.commentNumber
    constructor <;> nlinarith
  · intro N
    apply blockNumbers_enumerate 3
    intro v i
    unfold LoadTest.commentNumber
    push_cast
    ring
  · intro N
    apply blockNumbers_enumerate 33
    intro v i
    unfold LoadTestComplex.commentNumber
    push_cast
    ring

/-- Witness for C10: virtual user 2 at iteration 1 and virtual user 2 at iteration 1 again
are the only way to reach the number 5 (k = 3) and the number 35 (k = 33). -/
theorem commentNumber_block_bijection_witness :
    LoadTest.commentNumber 2 1 = 5 ∧ LoadTestComplex.commentNumber 2 1 = 35
    ∧ ((2 : Int) = 2 ∧ (1 : Int) = 1) ∧ ((2 : Int) = 2 ∧ (1 : Int) = 1)
    ∧ (1 ≤ LoadTest.commentNumber 2 1 ∧ 1 ≤ LoadTestComplex.commentNumber 2 1) :=
  ⟨by decide, by decide,
   commentNumber_block_bijection.1 2 1 2 1 (by decide) (by decide) (by decide) (by decide)
     (by decide) (by decide) rfl,
   commentNumber_block_bijection.2.1 2 1 2 1 (by decide) (by decide) (by decide) (by decide)
     (by decide) (by decide) rfl,
   commentNumber_block_bijection.2.2.1 2 1 (by decide) (by decide)⟩

/-! ## Setup (claims C2 and C8) -/

/-- Claim C2, counterexample: a login answered with status 401 fails the check
`login successful`, yet `setup` of both scripts returns a context, and `setup` of
load-test-complex.js issues the create-post request (authorised as `Token undefined`). -/
theorem setup_abort_counterexample :
    evalPredicate loginSuccessful (rejectingServer (loginRequest sampleEnv)) = false
    ∧ (∃ ctx, (LoadTest.setup sampleEnv rejectingServer State.init).1 = .ok ctx)
    ∧ (∃ ctx, (LoadTestComplex.setup sampleEnv rejectingServer State.init).1 = .ok ctx)
    ∧ Event.request (LoadTestComplex.createPostRequest sampleEnv .undefined)
        ∈ (LoadTestComplex.setup sampleEnv rejectingServer State.init).2.trace := by
  refine ⟨rfl, ⟨_, rfl⟩, ⟨_, rfl⟩, ?_⟩
  simp [LoadTestComplex.setup, send, check, State.emit, State.init, rejectingServer, rejection,
    Response.json, Val.path, Val.get, List.lookup]

/-- Claim C2, amended: `setup` never aborts on the login check.  For every login response,
passing the check `login successful` or not, `setup` of both scripts records the outcome
of that check and returns a context whose `authToken` is the value at `user.token` of the
login response; `setup` of load-test-complex.js also issues the create-post request,
authorised with that value. -/
theorem setup_returns_context (env : Env) (http : Request → Response) (s : State) :
    (LoadTest.setup env http s).1
        = .ok { authToken := (http (loginRequest env)).json ["user", "token"] }
    ∧ Event.check ⟨"login successful", (http (loginRequest env)).status == 200⟩
        ∈ (LoadTest.setup env http s).2.trace
    ∧ (LoadTestComplex.setup env http s).1
        = .ok { authToken := (http (loginRequest env)).json ["user", "token"]
                postSlug := (http (LoadTestComplex.createPostRequest env
                  ((http (loginRequest env)).json ["user", "token"]))).json ["article", "slug"] }
    ∧ Event.check ⟨"login successful", (http (loginRequest env)).status == 200⟩
        ∈ (LoadTestComplex.setup env http s).2.trace
    ∧ Event.request (LoadTestComplex.createPostRequest env
          ((http (loginRequest env)).json ["user", "token"]))
        ∈ (LoadTestComplex.setup env http s).2.trace := by
  refine ⟨rfl, ?_, rfl, ?_, ?_⟩
  · simp [LoadTest.setup, send, check, checkResults, State.emit, loginChecks, evalPredicate,
      loginSuccessful, Val.truthy]
  · simp [LoadTestComplex.setup, send, check, checkResults, State.emit, loginChecks,
      evalPredicate, loginSuccessful, Val.truthy]
  · simp [LoadTestComplex.setup, send, check, State.emit]

/-- Claim C8, evaluated on a login response and a create-post response that have no
`user.token` and no `article.slug`: the checks `token present` and `post slug present`
pass although nothing is there; in general each of them fails only when the value at the
selector is exactly the empty string. -/
theorem presence_checks_pass_on_missing_field :
    rejection.json ["user", "token"] = .undefined
    ∧ evalPredicate tokenPresent rejection = true
    ∧ rejection.json ["article", "slug"] = .undefined
    ∧ evalPredicate LoadTestComplex.postSlugPresent rejection = true
    ∧ (∀ r : Response, evalPredicate tokenPresent r = false ↔ r.json ["user", "token"] = .str "")
    ∧ (∀ r : Response, evalPredicate LoadTestComplex.postSlugPresent r = false
        ↔ r.json ["article", "slug"] = .str "") := by
  refine ⟨rfl, rfl, rfl, rfl, ?_, ?_⟩
  · intro r
    simp only [evalPredicate, tokenPresent, Val.truthy]
    cases h : r.json ["user", "token"] <;> simp [Val.strictEqStr]
  · intro r
    simp only [evalPredicate, LoadTestComplex.postSlugPresent, Val.truthy]
    cases h : r.json ["article", "slug"] <;> simp [Val.strictEqStr]

/-! ## The check group of the add-comment response (claims C3, C4, C5) -/

/-- The check `comment body is correct` passes exactly when the body is JSON and the
returned comment body is the string that was sent. -/
theorem commentBodyIsCorrect_pass_iff (c : String) (r : Response) :
    evalPredicate (commentBodyIsCorrect c) r = true
      ↔ ∃ v, r.body = some v ∧ (v.get "comment").get "body" = .str c := by
  obtain ⟨st, du, body⟩ := r
  cases body with
  | none => simp [evalPredicate, commentBodyIsCorrect, Response.parse]
  | some v =>
    simp only [evalPredicate, commentBodyIsCorrect, Response.parse, Option.some.injEq,
      exists_eq_left']
    cases v <;> simp only [Val.prop, Val.get] <;> try simp
    rename_i kvs
    generalize (List.lookup "comment" kvs).getD Val.undefined = cm
    cases cm <;> simp [Val.truthy, Val.strictEqStr]
    rename_i kvs2
    generalize (List.lookup "body" kvs2).getD Val.undefined = b
    cases b <;> simp

/-- The add-comment check group passes exactly when the four conditions hold. -/
theorem addCommentChecks_pass_iff (c : String) (r : Response) :
    groupPasses r (addCommentChecks c) = true ↔ AddCommentChecksPass r c := by
  have hb := commentBodyIsCorrect_pass_iff c r
  simp only [groupPasses, checkResults, addCommentChecks, List.map, List.all_cons, List.all_nil,
    Bool.and_true, Bool.and_eq_true, hb, AddCommentChecksPass]
  simp [evalPredicate, commentAdded, responseTimeOk, noErrorsInBody, Val.truthy]

/-- Effect of one iteration of load-test.js on `add_comment_errors`. -/
theorem loadTest_default_addCommentErrors (env : Env) (http : Request → Response)
    (data : LoadTest.Context) (vu iter : Int) (s : State) :
    (LoadTest.default env http data vu iter s).2.counters "add_comment_errors"
      = s.counters "add_comment_errors"
        + (if groupPasses (http (LoadTest.addCommentRequest env data vu iter))
              (addCommentChecks (LoadTest.comment vu iter)) = true then 0 else 1) := by
  simp only [LoadTest.default, send, sleep, State.emit, State.add, check]
  split_ifs <;> simp

/-- Effect of one iteration of load-test-complex.js on `add_comment_errors`. -/
theorem loadTestComplex_default_addCommentErrors (env : Env) (http : Request → Response)
    (data : LoadTestComplex.Context) (vu iter : Int) (s : State) :
    (LoadTestComplex.default env http data vu iter s).2.counters "add_comment_errors"
      = s.counters "add_comment_errors"
        + (if groupPasses (http (LoadTestComplex.addCommentRequest env data vu iter))
              (addCommentChecks (LoadTestComplex.comment vu iter)) = true then 0 else 1) := by
  simp only [LoadTestComplex.default, send, sleep, State.emit, State.add, check]
  split_ifs <;> simp

/-- Claim C3: in either script, one iteration of the default function leaves
`add_comment_errors` unchanged when the add-comment response passes all four checks
(status 200, response time below 600 ms, returned comment body equal to the body sent, no
errors in the body) and adds exactly 1 when at least one of them fails. -/
theorem addCommentErrors_counts_failed_group (env : Env) (http : Request → Response)
    (dataL : LoadTest.Context) (dataC : LoadTestComplex.Context) (vu iter : Int) (s : State) :
    (AddCommentChecksPass (http (LoadTest.addCommentRequest env dataL vu iter))
          (LoadTest.comment vu iter) →
        (LoadTest.default env http dataL vu iter s).2.counters "add_comment_errors"
          = s.counters "add_comment_errors")
    ∧ (¬ AddCommentChecksPass (http (LoadTest.addCommentRequest env dataL vu iter))
          (LoadTest.comment vu iter) →
        (LoadTest.default env http dataL vu iter s).2.counters "add_comment_errors"
          = s.counters "add_comment_errors" + 1)
    ∧ (AddCommentChecksPass (http (LoadTestComplex.addCommentRequest env dataC vu iter))
          (LoadTestComplex.comment vu iter) →
        (LoadTestComplex.default env http dataC vu iter s).2.counters "add_comment_errors"
          = s.counters "add_comment_errors")
    ∧ (¬ AddCommentChecksPass (http (LoadTestComplex.addCommentRequest env dataC vu iter))
          (LoadTestComplex.comment vu iter) →
        (LoadTestComplex.default env http dataC vu iter s).2.counters "add_comment_errors"
          = s.counters "add_comment_errors" + 1) := by
  refine ⟨?_, ?_, ?_, ?_⟩
  · intro h
    rw [loadTest_default_addCommentErrors, if_pos ((addCommentChecks_pass_iff _ _).mpr h)]
    rfl
  · intro h
    rw [loadTest_default_addCommentErrors,
      if_neg (fun hp => h ((addCommentChecks_pass_iff _ _).mp hp))]
  · intro h
    rw [loadTestComplex_default_addCommentErrors, if_pos ((addCommentChecks_pass_iff _ _).mpr h)]
    rfl
  · intro h
    rw [loadTestComplex_default_addCommentErrors,
      if_neg (fun hp => h ((addCommentChecks_pass_iff _ _).mp hp))]

/-- The healthy server passes all four add-comment checks. -/
theorem echoServer_passes (req : Request) (c : String)
    (h : req.payload = some (.obj [("comment", .obj [("body", .str c)])])) :
    AddCommentChecksPass (echoServer req) c := by
  refine ⟨rfl, ?_, ⟨_, rfl, ?_⟩, rfl⟩
  · show (120 : ℚ) < 600
    norm_num
  · rw [h]
    rfl

/-- Witness for C3: the healthy server leaves the counter at 0, the rejecting server
brings it to 1, in both scripts. -/
theorem addCommentErrors_counts_failed_group_witness :
    (LoadTest.default sampleEnv echoServer sampleData 2 1 State.init).2.counters
        "add_comment_errors" = 0
    ∧ (LoadTest.default sampleEnv rejectingServer sampleData 2 1 State.init).2.counters
        "add_comment_errors" = 1
    ∧ (LoadTestComplex.default sampleEnv echoServer sampleDataComplex 2 1 State.init).2.counters
        "add_comment_errors" = 0
    ∧ (LoadTestComplex.default sampleEnv rejectingServer sampleDataComplex 2 1
        State.init).2.counters "add_comment_errors" = 1 :=
  ⟨(addCommentErrors_counts_failed_group sampleEnv echoServer sampleData sampleDataComplex 2 1
      State.init).1 (echoServer_passes _ _ rfl),
   (addCommentErrors_counts_failed_group sampleEnv rejectingServer sampleData sampleDataComplex
      2 1 State.init).2.1 (fun h => absurd h.1 (by decide)),
   (addCommentErrors_counts_failed_group sampleEnv echoServer sampleData sampleDataComplex 2 1
      State.init).2.2.1 (echoServer_passes _ _ rfl),
   (addCommentErrors_counts_failed_group sampleEnv rejectingServer sampleData sampleDataComplex
      2 1 State.init).2.2.2 (fun h => absurd h.1 (by decide))⟩

/-- Without a `comment` object the check `comment body is correct` fails. -/
theorem noCommentObject_fails (r : Response) (c : String) (h : NoCommentObject r) :
    evalPredicate (commentBodyIsCorrect c) r = false := by
  have hiff := commentBodyIsCorrect_pass_iff c r
  cases hp : evalPredicate (commentBodyIsCorrect c) r with
  | false => rfl
  | true =>
    exfalso
    obtain ⟨v, hv, hb⟩ := hiff.mp hp
    rcases h with h | ⟨w, hw, hobj⟩
    · rw [h] at hv; cases hv
    · rw [hw] at hv
      cases hv
      generalize v.get "comment" = cm at hb hobj
      cases cm <;> simp [Val.get, Val.isObj] at hb hobj

/-- Without a `comment` object the add-comment check group fails. -/
theorem noCommentObject_group_fails (r : Response) (c : String) (h : NoCommentObject r) :
    groupPasses r (addCommentChecks c) = false := by
  simp [groupPasses, checkResults, addCommentChecks, noCommentObject_fails r c h]

/-- Events of one iteration of load-test.js: the request, its four checks, what the
delete step adds, and the final sleep. -/
theorem loadTest_default_trace (env : Env) (http : Request → Response)
    (data : LoadTest.Context) (vu iter : Int) (s : State) :
    ∃ evs, (LoadTest.default env http data vu iter s).2.trace
      = s.trace
        ++ (Event.request (LoadTest.addCommentRequest env data vu iter)
          :: (checkResults (http (LoadTest.addCommentRequest env data vu iter))
                (addCommentChecks (LoadTest.comment vu iter))).map Event.check)
        ++ evs ++ [Event.sleep 3] := by
  simp only [LoadTest.default, send, sleep, State.emit, State.add, check]
  split_ifs
  all_goals first
    | (refine ⟨[], ?_⟩; simp; done)
    | (refine ⟨Event.request (LoadTest.deleteCommentRequest env data
          (LoadTest.commentId (http (LoadTest.addCommentRequest env data vu iter))))
        :: (checkResults (http (LoadTest.deleteCommentRequest env data
              (LoadTest.commentId (http (LoadTest.addCommentRequest env data vu iter)))))
            LoadTest.deleteCommentChecks).map Event.check, ?_⟩
       simp)

/-- Events of one iteration of load-test-complex.js: the request, its four checks and
the final sleep. -/
theorem loadTestComplex_default_trace (env : Env) (http : Request → Response)
    (data : LoadTestComplex.Context) (vu iter : Int) (s : State) :
    (LoadTestComplex.default env http data vu iter s).2.trace
      = s.trace
        ++ (Event.request (LoadTestComplex.addCommentRequest env data vu iter)
          :: (checkResults (http (LoadTestComplex.addCommentRequest env data vu iter))
                (addCommentChecks (LoadTestComplex.comment vu iter))).map Event.check)
        ++ [Event.sleep 3] := by
  simp only [LoadTestComplex.default, send, sleep, State.emit, State.add, check]
  split_ifs <;> simp

/-- The outcome of `comment body is correct` is among the recorded checks. -/
theorem commentBodyIsCorrect_mem (r : Response) (c : String) :
    Event.check ⟨"comment body is correct", evalPredicate (commentBodyIsCorrect c) r⟩
      ∈ (checkResults r (addCommentChecks c)).map Event.check := by
  simp [checkResults, addCommentChecks]

/-- Claim C4: for an add-comment response whose body is not parseable JSON or has no
`comment` object, the iteration of the default function (either script) runs to its end
and reaches the final `sleep(3)`, the check group fails with `comment body is correct`
recorded as failed, and `add_comment_errors` grows by exactly 1.  The predicate of that
check raises on a body that is not JSON and on a body whose `comment` is absent or null. -/
theorem throwing_predicate_is_failed_check (env : Env) (http : Request → Response)
    (dataL : LoadTest.Context) (dataC : LoadTestComplex.Context) (vu iter : Int) (s : State) :
    (NoCommentObject (http (LoadTest.addCommentRequest env dataL vu iter)) →
        (LoadTest.default env http dataL vu iter s).1 = .ok ()
        ∧ (∃ evs, (LoadTest.default env http dataL vu iter s).2.trace
            = s.trace ++ evs ++ [Event.sleep 3])
        ∧ groupPasses (http (LoadTest.addCommentRequest env dataL vu iter))
            (addCommentChecks (LoadTest.comment vu iter)) = false
        ∧ Event.check ⟨"comment body is correct", false⟩
            ∈ (LoadTest.default env http dataL vu iter s).2.trace
        ∧ (LoadTest.default env http dataL vu iter s).2.counters "add_comment_errors"
            = s.counters "add_comment_errors" + 1)
    ∧ (NoCommentObject (http (LoadTestComplex.addCommentRequest env dataC vu iter)) →
        (LoadTestComplex.default env http dataC vu iter s).1 = .ok ()
        ∧ (∃ evs, (LoadTestComplex.default env http dataC vu iter s).2.trace
            = s.trace ++ evs ++ [Event.sleep 3])
        ∧ groupPasses (http (LoadTestComplex.addCommentRequest env dataC vu iter))
            (addCommentChecks (LoadTestComplex.comment vu iter)) = false
        ∧ Event.check ⟨"comment body is correct", false⟩
            ∈ (LoadTestComplex.default env http dataC vu iter s).2.trace
        ∧ (LoadTestComplex.default env http dataC vu iter s).2.counters "add_comment_errors"
            = s.counters "add_comment_errors" + 1)
    ∧ (∀ (r : Response) (c : String), r.body = none →
        commentBodyIsCorrect c r = .error .syntaxError)
    ∧ (∀ (r : Response) (c : String) (v : Val), r.body = some v →
        (v.get "comment" = .undefined ∨ v.get "comment" = .null) →
        commentBodyIsCorrect c r = .error .typeError) := by
  refine ⟨?_, ?_, ?_, ?_⟩
  · intro h
    have hg := noCommentObject_group_fails _ (LoadTest.comment vu iter) h
    have hm := commentBodyIsCorrect_mem (http (LoadTest.addCommentRequest env dataL vu iter))
      (LoadTest.comment vu iter)
    rw [noCommentObject_fails _ _ h] at hm
    obtain ⟨evs, htr⟩ := loadTest_default_trace env http dataL vu iter s
    refine ⟨rfl, ⟨_, by rw [htr, List.append_assoc s.trace]⟩, hg, ?_, ?_⟩
    · rw [htr]
      simp only [List.mem_append, List.mem_cons]
      exact Or.inl (Or.inl (Or.inr (Or.inr hm)))
    · rw [loadTest_default_addCommentErrors, hg]
      rfl
  · intro h
    have hg := noCommentObject_group_fails _ (LoadTestComplex.comment vu iter) h
    have hm := commentBodyIsCorrect_mem
      (http (LoadTestComplex.addCommentRequest env dataC vu iter))
      (LoadTestComplex.comment vu iter)
    rw [noCommentObject_fails _ _ h] at hm
    have htr := loadTestComplex_default_trace env http dataC vu iter s
    refine ⟨rfl, ⟨_, htr⟩, hg, ?_, ?_⟩
    · rw [htr]
      simp only [List.mem_append, List.mem_cons]
      exact Or.inl (Or.inr (Or.inr hm))
    · rw [loadTestComplex_default_addCommentErrors, hg]
      rfl
  · intro r c h
    simp [commentBodyIsCorrect, Response.parse, h]
  · intro r c v h hc
    simp only [commentBodyIsCorrect, Response.parse, h]
    cases v <;> simp_all [Val.prop, Val.get]
    rcases hc with hc | hc <;> rw [hc]

/-- Witness for C4: a gateway error (body not JSON) and a rejection (JSON without
`comment`), in both scripts: the iteration ends normally with the counter at 1. -/
theorem throwing_predicate_is_failed_check_witness :
    ((LoadTest.default sampleEnv brokenServer sampleData 1 0 State.init).1 = .ok ()
      ∧ (LoadTest.default sampleEnv brokenServer sampleData 1 0 State.init).2.counters
          "add_comment_errors" = 1)
    ∧ ((LoadTestComplex.default sampleEnv rejectingServer sampleDataComplex 1 0 State.init).1
          = .ok ()
      ∧ (LoadTestComplex.default sampleEnv rejectingServer sampleDataComplex 1 0
          State.init).2.counters "add_comment_errors" = 1) :=
  have hL := (throwing_predicate_is_failed_check sampleEnv brokenServer sampleData
    sampleDataComplex 1 0 State.init).1 (Or.inl rfl)
  have hC := (throwing_predicate_is_failed_check sampleEnv rejectingServer sampleData
    sampleDataComplex 1 0 State.init).2.1 (Or.inr ⟨_, rfl, rfl⟩)
  ⟨⟨hL.1, hL.2.2.2.2⟩, ⟨hC.1, hC.2.2.2.2⟩⟩

/-! ## Error counter and threshold over a run (claim C5) -/

/-- Over a run of load-test.js the counter grows by the number of failed groups. -/
theorem loadTest_runIterations_addCommentErrors (env : Env) (data : LoadTest.Context)
    (its : List Iteration) : ∀ s : State,
    (LoadTest.runIterations env data its s).counters "add_comment_errors"
      = s.counters "add_comment_errors" + its.countP (LoadTest.groupFailed env data) := by
  induction its with
  | nil => intro s; simp [LoadTest.runIterations]
  | cons it rest ih =>
    intro s
    rw [LoadTest.runIterations, ih, loadTest_default_addCommentErrors, List.countP_cons]
    cases h : groupPasses (it.http (LoadTest.addCommentRequest env data it.vu it.iter))
        (addCommentChecks (LoadTest.comment it.vu it.iter))
    · simp [LoadTest.groupFailed, h]
      omega
    · simp [LoadTest.groupFailed, h]

/-- Over a run of load-test-complex.js the counter grows by the number of failed groups. -/
theorem loadTestComplex_runIterations_addCommentErrors (env : Env)
    (data : LoadTestComplex.Context) (its : List Iteration) : ∀ s : State,
    (LoadTestComplex.runIterations env data its s).counters "add_comment_errors"
      = s.counters "add_comment_errors" + its.countP (LoadTestComplex.groupFailed env data) := by
  induction its with
  | nil => intro s; simp [LoadTestComplex.runIterations]
  | cons it rest ih =>
    intro s
    rw [LoadTestComplex.runIterations, ih, loadTestComplex_default_addCommentErrors,
      List.countP_cons]
    cases h : groupPasses (it.http (LoadTestComplex.addCommentRequest env data it.vu it.iter))
        (addCommentChecks (LoadTestComplex.comment it.vu it.iter))
    · simp [LoadTestComplex.groupFailed, h]
      omega
    · simp [LoadTestComplex.groupFailed, h]

/-- Claim C5: for every finite sequence of iterations of the default function (either
script) started with the counters at zero, the final value of `add_comment_errors` is the
number of iterations whose add-comment check group failed, and the declared threshold
`count<10` on `add_comment_errors` passes exactly when that number is below 10; a count of
9 passes, counts of 10 and 11 fail. -/
theorem addCommentErrors_threshold (env : Env) (dataL : LoadTest.Context)
    (dataC : LoadTestComplex.Context) (its : List Iteration) :
    (LoadTest.runIterations env dataL its State.init).counters "add_comment_errors"
        = its.countP (LoadTest.groupFailed env dataL)
    ∧ thresholdPasses LoadTest.thresholds "add_comment_errors"
          (LoadTest.runIterations env dataL its State.init)
        = some (decide (its.countP (LoadTest.groupFailed env dataL) < 10))
    ∧ (LoadTestComplex.runIterations env dataC its State.init).counters "add_comment_errors"
        = its.countP (LoadTestComplex.groupFailed env dataC)
    ∧ thresholdPasses LoadTestComplex.thresholds "add_comment_errors"
          (LoadTestComplex.runIterations env dataC its State.init)
        = some (decide (its.countP (LoadTestComplex.groupFailed env dataC) < 10))
    ∧ LoadTest.thresholds.lookup "add_comment_errors" = some (.countLt 10)
    ∧ LoadTestComplex.thresholds.lookup "add_comment_errors" = some (.countLt 10)
    ∧ Threshold.evalCount (.countLt 10) 9 = some true
    ∧ Threshold.evalCount (.countLt 10) 10 = some false
    ∧ Threshold.evalCount (.countLt 10) 11 = some false := by
  have hL := loadTest_runIterations_addCommentErrors env dataL its State.init
  have hC := loadTestComplex_runIterations_addCommentErrors env dataC its State.init
  have h0 : State.init.counters "add_comment_errors" = 0 := rfl
  rw [h0, Nat.zero_add] at hL hC
  have tL : LoadTest.thresholds.lookup "add_comment_errors" = some (.countLt 10) := by decide
  have tC : LoadTestComplex.thresholds.lookup "add_comment_errors" = some (.countLt 10) := by
    decide
  refine ⟨hL, ?_, hC, ?_, tL, tC, rfl, rfl, rfl⟩
  · simp only [thresholdPasses, tL, Option.bind, Threshold.evalCount, hL]
  · simp only [thresholdPasses, tC, Option.bind, Threshold.evalCount, hC]

/-! ## Teardown (claim C6) -/

/-- Claim C6: for every delete-post response, `teardown` of load-test-complex.js ends
normally, adds exactly 1 to `delete_post_errors` when the response status is not 204,
leaves `delete_post_errors` unchanged when it is 204, and leaves the context it was given
(authToken, postSlug) as it was. -/
theorem teardown_records_failure (env : Env) (http : Request → Response)
    (data : LoadTestComplex.Context) (s : State) :
    (LoadTestComplex.teardown env http data s).1 = .ok ()
    ∧ (LoadTestComplex.teardown env http data s).2.1 = data
    ∧ (LoadTestComplex.teardown env http data s).2.2.counters "delete_post_errors"
        = s.counters "delete_post_errors"
          + (if (http (LoadTestComplex.deletePostRequest env data)).status = 204 then 0 else 1)
    ∧ Event.request (LoadTestComplex.deletePostRequest env data)
        ∈ (LoadTestComplex.teardown env http data s).2.2.trace := by
  refine ⟨rfl, rfl, ?_, ?_⟩
  · simp only [LoadTestComplex.teardown, send, State.emit, State.add, check, groupPasses,
      checkResults, LoadTestComplex.deletePostChecks, evalPredicate, Val.truthy, List.map,
      List.all_cons, List.all_nil, Bool.and_true]
    by_cases h : (http (LoadTestComplex.deletePostRequest env data)).status = 204 <;>
      simp [h]
  · simp only [LoadTestComplex.teardown, send, State.emit, State.add, check]
    split_ifs <;> simp

/-! ## Deleting the comment in load-test.js (claim C9) -/

/-- The DELETE requests of a concatenation. -/
theorem deleteRequests_append (xs ys : List Event) :
    deleteRequests (xs ++ ys) = deleteRequests xs ++ deleteRequests ys := by
  induction xs with
  | nil => rfl
  | cons e es ih =>
    cases e with
    | request r => by_cases h : r.method = .delete <;> simp [deleteRequests, h, ih]
    | check c => simpa [deleteRequests] using ih
    | sleep n => simpa [deleteRequests] using ih

/-- Recorded checks contain no request. -/
theorem deleteRequests_checks (cs : List CheckResult) :
    deleteRequests (cs.map Event.check) = [] := by
  induction cs with
  | nil => rfl
  | cons c cs ih => simpa [deleteRequests] using ih

/-- The delete-comment check group passes exactly on status 200 in under 600 ms. -/
theorem deleteCommentChecks_pass_iff (d : Response) :
    groupPasses d LoadTest.deleteCommentChecks = true ↔ d.status = 200 ∧ d.duration < 600 := by
  simp [groupPasses, checkResults, LoadTest.deleteCommentChecks, evalPredicate, Val.truthy]

/-- Claim C9: in load-test.js one iteration adds exactly 1 to `delete_comment_errors`
when the add-comment response yields no usable comment id (the id read at lines 71-72 is
falsy: no `comment` object, or an id that is absent, null, false, 0 or empty), and then no
DELETE request is issued, or when the DELETE request to `<addCommentUrl>/<id>` is issued
and its check group fails (status other than 200 or duration of 600 ms or more); otherwise
exactly one DELETE request is issued and the counter is unchanged.  The counter never
grows by more than 1 in one iteration. -/
theorem deleteCommentErrors_per_iteration (env : Env) (http : Request → Response)
    (data : LoadTest.Context) (vu iter : Int) (s : State) :
    (LoadTest.default env http data vu iter s).2.counters "delete_comment_errors"
        = s.counters "delete_comment_errors"
          + (if (LoadTest.commentId (http (LoadTest.addCommentRequest env data vu iter))).truthy
                  = true
                ∧ (http (LoadTest.deleteCommentRequest env data (LoadTest.commentId
                    (http (LoadTest.addCommentRequest env data vu iter))))).status = 200
                ∧ (http (LoadTest.deleteCommentRequest env data (LoadTest.commentId
                    (http (LoadTest.addCommentRequest env data vu iter))))).duration < 600
              then 0 else 1)
    ∧ deleteRequests (LoadTest.default env http data vu iter s).2.trace
        = deleteRequests s.trace
          ++ (if (LoadTest.commentId (http (LoadTest.addCommentRequest env data vu iter))).truthy
                  = true
              then [LoadTest.deleteCommentRequest env data (LoadTest.commentId
                      (http (LoadTest.addCommentRequest env data vu iter)))]
              else [])
    ∧ (∀ id : Val, (LoadTest.deleteCommentRequest env data id).method = .delete
        ∧ (LoadTest.deleteCommentRequest env data id).url
            = LoadTest.addCommentUrl env ++ "/" ++ id.toStr)
    ∧ (LoadTest.default env http data vu iter s).2.counters "delete_comment_errors"
        ≤ s.counters "delete_comment_errors" + 1
    ∧ (∀ r : Response, (∀ kvs, r.json ["comment"] ≠ .obj kvs) →
        (LoadTest.commentId r).truthy = false)
    ∧ (∀ (r : Response) (kvs : List (String × Val)), r.json ["comment"] = .obj kvs →
        LoadTest.commentId r = (Val.obj kvs).get "id")
    ∧ Val.truthy .undefined = false ∧ Val.truthy .null = false
    ∧ Val.truthy (.bool false) = false ∧ Val.truthy (.num 0) = false
    ∧ Val.truthy (.str "") = false := by
  have hcount : (LoadTest.default env http data vu iter s).2.counters "delete_comment_errors"
        = s.counters "delete_comment_errors"
          + (if (LoadTest.commentId (http (LoadTest.addCommentRequest env data vu iter))).truthy
                  = true
                ∧ (http (LoadTest.deleteCommentRequest env data (LoadTest.commentId
                    (http (LoadTest.addCommentRequest env data vu iter))))).status = 200
                ∧ (http (LoadTest.deleteCommentRequest env data (LoadTest.commentId
                    (http (LoadTest.addCommentRequest env data vu iter))))).duration < 600
              then 0 else 1) := by
    have hd := deleteCommentChecks_pass_iff (http (LoadTest.deleteCommentRequest env data
      (LoadTest.commentId (http (LoadTest.addCommentRequest env data vu iter)))))
    simp only [LoadTest.default, send, sleep, State.emit, State.add, check, hd]
    split_ifs <;> simp_all
  refine ⟨hcount, ?_, fun id => ⟨rfl, rfl⟩, ?_, ?_, ?_, rfl, rfl, rfl, rfl, rfl⟩
  · simp only [LoadTest.default, send, sleep, State.emit, State.add, check]
    split_ifs <;>
      simp [deleteRequests_append, deleteRequests_checks, deleteRequests,
        LoadTest.addCommentRequest, LoadTest.deleteCommentRequest]
  · rw [hcount]
    split_ifs <;> omega
  · intro r hno
    unfold LoadTest.commentId
    cases hc : r.json ["comment"] with
    | obj kvs => exact absurd hc (hno kvs)
    | _ =>
      simp only [Val.truthy, Val.get]
      first
        | rfl
        | (split_ifs <;> rfl)
  · intro r kvs hc
    simp [LoadTest.commentId, hc, Val.truthy]

/-- Witness for C9: against the healthy server the comment (id 7) is deleted by one DELETE
request and the counter stays at 0; a rejection yields no usable id. -/
theorem deleteCommentErrors_per_iteration_witness :
    (LoadTest.default sampleEnv echoServer sampleData 1 0 State.init).2.counters
        "delete_comment_errors" = 0
    ∧ (deleteRequests (LoadTest.default sampleEnv echoServer sampleData 1 0
        State.init).2.trace).length = 1
    ∧ (LoadTest.commentId rejection).truthy = false :=
  have h := deleteCommentErrors_per_iteration sampleEnv echoServer sampleData 1 0 State.init
  ⟨h.1.trans (by
      rw [if_pos ⟨rfl, rfl, by show (120 : ℚ) < 600; norm_num⟩]
      rfl),
   (congrArg List.length h.2.1).trans rfl,
   h.2.2.2.2.1 rejection (fun kvs (hc : Val.undefined = Val.obj kvs) => Val.noConfusion hc)⟩

/-! ## The ramp (claim C7) -/

/-- Rounding to nearest does not pass an integer bound. -/
theorem round_le_of_le (x : ℚ) (m : Int) (h : x ≤ (m : ℚ)) : round x ≤ m := by
  rw [round_eq]
  apply Int.lt_add_one_iff.mp
  apply Int.floor_lt.mpr
  push_cast
  linarith

/-- Inside a stage the interpolated value stays below a bound on both ends. -/
theorem interpolation_le (prev target m t d : ℚ) (ht : 0 ≤ t) (htd : t < d)
    (hp : prev ≤ m) (hg : target ≤ m) : prev + (target - prev) * t / d ≤ m := by
  have hd : 0 < d := lt_of_le_of_lt ht htd
  have hq0 : 0 ≤ t / d := div_nonneg ht hd.le
  have hq1 : t / d ≤ 1 := (div_le_one hd).mpr htd.le
  rw [mul_div_assoc]
  nlinarith [mul_nonneg hq0 (sub_nonneg.mpr hg),
    mul_nonneg (sub_nonneg.mpr hq1) (sub_nonneg.mpr hp)]

/-- No overshoot in general: starting at most at `m` with all targets at most `m`, the
desired concurrency is at most `m` at every time `t >= 0`. -/
theorem desiredConcurrency_le (m : Int) (hm : 0 ≤ m) : ∀ (stages : List Stage) (prev : Int)
    (t : ℚ), 0 ≤ t → prev ≤ m → (∀ st ∈ stages, (st.target : Int) ≤ m) →
    desiredConcurrency prev stages t ≤ m := by
  intro stages
  induction stages with
  | nil => intro prev t _ hp _; simpa [desiredConcurrency] using hp
  | cons st rest ih =>
    intro prev t ht hp hall
    have hst : (st.target : Int) ≤ m := hall st (List.mem_cons_self _ _)
    unfold desiredConcurrency
    split_ifs with h
    · apply max_le hm
      apply round_le_of_le
      apply interpolation_le _ _ _ _ _ ht h
      · exact_mod_cast hp
      · exact_mod_cast hst
    · exact ih st.target (t - st.duration) (by linarith) hst
        (fun x hx => hall x (List.mem_cons_of_mem _ hx))

/-- Claim C7: for the stage lists declared in `options.stages` of both scripts (ramp from 0
virtual users, 540 s and 480 s long) and the interpolation formula of the spec, the desired
virtual-user count at every time t within the ramp is at most the sum of all stage targets
(150 in both scripts), is in fact at most the largest target 60, and is 0 at the end of the
last stage. -/
theorem ramp_no_overshoot (t : ℚ) (h0 : 0 ≤ t) :
    (t ≤ 540 →
        desiredConcurrency 0 LoadTest.stages t ≤ ((LoadTest.stages.map Stage.target).sum : Int)
        ∧ desiredConcurrency 0 LoadTest.stages t ≤ 60)
    ∧ (t ≤ 480 →
        desiredConcurrency 0 LoadTestComplex.stages t
          ≤ ((LoadTestComplex.stages.map Stage.target).sum : Int)
        ∧ desiredConcurrency 0 LoadTestComplex.stages t ≤ 60)
    ∧ (LoadTest.stages.map Stage.target).sum = 150
    ∧ (LoadTestComplex.stages.map Stage.target).sum = 150
    ∧ (LoadTest.stages.map Stage.duration).sum = 540
    ∧ (LoadTestComplex.stages.map Stage.duration).sum = 480
    ∧ desiredConcurrency 0 LoadTest.stages 540 = 0
    ∧ desiredConcurrency 0 LoadTestComplex.stages 480 = 0 := by
  have hL : desiredConcurrency 0 LoadTest.stages t ≤ 60 :=
    desiredConcurrency_le 60 (by decide) LoadTest.stages 0 t h0 (by decide) (by decide)
  have hC : desiredConcurrency 0 LoadTestComplex.stages t ≤ 60 :=
    desiredConcurrency_le 60 (by decide) LoadTestComplex.stages 0 t h0 (by decide) (by decide)
  have sL : (LoadTest.stages.map Stage.target).sum = 150 := by decide
  have sC : (LoadTestComplex.stages.map Stage.target).sum = 150 := by decide
  refine ⟨fun _ => ⟨?_, hL⟩, fun _ => ⟨?_, hC⟩, sL, sC, by decide, by decide, ?_, ?_⟩
  · rw [sL]; exact le_trans hL (by decide)
  · rw [sC]; exact le_trans hC (by decide)
  · norm_num [desiredConcurrency, LoadTest.stages]
  · norm_num [desiredConcurrency, LoadTestComplex.stages]

/-- Witness for C7: 90 s into the ramp, half a minute into the second stage of
load-test.js and half a minute into the third stage of load-test-complex.js. -/
theorem ramp_no_overshoot_witness :
    desiredConcurrency 0 LoadTest.stages 90 ≤ 60
    ∧ desiredConcurrency 0 LoadTestComplex.stages 90 ≤ 60 :=
  have h := ramp_no_overshoot 90 (by norm_num)
  ⟨(h.1 (by norm_num)).2, (h.2.1 (by norm_num)).2⟩

end K6
